import Mathlib

/-!
Verification of the Dataverse OData client (src/src/dataverse_sdk/odata.py and
src/examples/quickstart.py) against its design specification.

The Python code is shallowly embedded: each relevant Python function becomes an
executable Lean definition over `String` / `List` data. Network transport and the
JSON library are external collaborators of the code under verification, so they
appear as function parameters (for example, `jsonLoads : String → Option α` stands
for `json.loads`, returning `none` exactly when the library would raise
`json.JSONDecodeError`). Side effects that the specification talks about
(sleeping, issuing a network call, attempting a JSON parse) are made observable
as an explicit event trace returned alongside the result.
-/

/-! ## Python string primitives

Executable models of the Python `str` operations the code uses. Python semantics,
restricted to the ASCII data these code paths handle: `str.strip` removes the
whitespace characters from both ends, `str.split(sep)` splits on every
non-overlapping occurrence of a non-empty separator left to right, `str.find`
returns the first index of a substring, `in` is containment, and `str.lower` /
`str.upper` act characterwise.
-/

/-- The characters Python `str.strip()` removes. -/
def pyWS (c : Char) : Bool :=
  c == ' ' || c == '\t' || c == '\n' || c == '\r' || c == '\x0b' || c == '\x0c'

/-- Python `s.strip()`. -/
def pyStrip (s : String) : String :=
  String.mk (((s.data.dropWhile pyWS).reverse.dropWhile pyWS).reverse)

/-- Python `s.lower()` (characterwise; the inputs in scope are ASCII). -/
def pyLower (s : String) : String :=
  String.mk (s.data.map Char.toLower)

/-- Python `s.startswith(p)`. -/
def pyStartsWith (s p : String) : Bool :=
  p.data.isPrefixOf s.data

/-- Python `s.endswith(p)`. -/
def pyEndsWith (s p : String) : Bool :=
  p.data.isSuffixOf s.data

/-- Python `c in s` for a single character `c`. -/
def pyContainsChar (s : String) (c : Char) : Bool :=
  s.data.contains c

/-- Worker for Python `s.split(sep)` with non-empty separator `c :: cs`:
scan left to right, cutting at each non-overlapping occurrence of the
separator. `acc` holds the current (reversed) segment. The fuel argument makes
the recursion structural; each step shortens the text by at least one
character, so fuel equal to the text length never runs out. -/
def pySplitGo (c : Char) (cs : List Char) : Nat → List Char → List Char → List (List Char)
  | _, [], acc => [acc.reverse]
  | 0, l, acc => [acc.reverse ++ l]
  | fuel + 1, x :: xs, acc =>
    if (c :: cs).isPrefixOf (x :: xs) then
      acc.reverse :: pySplitGo c cs fuel (xs.drop cs.length) []
    else
      pySplitGo c cs fuel xs (x :: acc)

/-- Python `s.split(sep)` (the code only ever passes non-empty separators). -/
def pySplit (s sep : String) : List String :=
  match sep.data with
  | [] => [s]
  | c :: cs => (pySplitGo c cs s.data.length s.data []).map String.mk

/-- Python `s.find(pat)` as an `Option` (Python returns `-1` for `none`). -/
def pyFindGo (pat : List Char) : List Char → Nat → Option Nat
  | [], i => if pat.isPrefixOf [] then some i else none
  | x :: xs, i => if pat.isPrefixOf (x :: xs) then some i else pyFindGo pat xs (i + 1)

/-- Python `s.find(pat)`, `none` standing for `-1`. -/
def pyFind (s pat : String) : Option Nat :=
  pyFindGo pat.data s.data 0

/-- Python `"\r\n".join(lines)`. -/
def joinCRLF (lines : List String) : String :=
  String.mk (List.intercalate ['\r', '\n'] (lines.map String.data))

/-! ## Batch Codec — decode (`ODataClient._parse_batch_response`)

The decoder splits the raw response text on the literal marker `"HTTP/1.1 "`,
discards the preamble segment, and processes each remaining part: a part whose
status line does not start with `"201"` yields `none`; otherwise the lines after
the first blank line are joined, stripped, and (when they start with an opening
brace) cut at the first closing-brace-then-boundary pattern and handed to the
JSON parser, whose failure also yields `none`. Finally the result list is padded
with `none` or truncated so its length is the expected count.
-/

/-- The marker the decoder splits the response text on. -/
def httpMarker : String := "HTTP/1.1 "

/-- The pattern locating the end of an embedded JSON object:
a closing brace followed by a CRLF and a boundary introducer. -/
def braceBoundary : String := "\x7d\r\n--"

/-- `response_text.split("HTTP/1.1 ")[1:]` — the per-part segments, preamble dropped. -/
def batchParts (response_text : String) : List String :=
  (pySplit response_text httpMarker).drop 1

/-- `part.split("\r\n")[0]` — the status line of one part. -/
def statusLineOf (part : String) : String :=
  (pySplit part "\r\n").headD ""

/-- The body-extraction phase of the decoder for one part: collect the lines
after the first blank (stripped-empty) line, join them with CRLF, strip, and if
the text starts with an opening brace, cut it at the first
closing-brace-then-boundary pattern (if any). `none` when there is no body to
hand to the JSON parser (no blank line, nothing after it, or a body that does
not start with an opening brace). -/
def extractJsonText (part : String) : Option String :=
  let lines := pySplit part "\r\n"
  let jsonLines := (lines.dropWhile (fun l => !(pyStrip l == ""))).drop 1
  if jsonLines.isEmpty then none
  else
    let jsonText := pyStrip (joinCRLF jsonLines)
    if pyStartsWith jsonText "\x7b" then
      some (match pyFind jsonText braceBoundary with
        | some j => String.mk (jsonText.data.take (j + 1))
        | none => jsonText)
    else none

/-- Decoding of a single response part, parameterized by the JSON parser
(`jsonLoads s = none` models `json.JSONDecodeError`). -/
def parsePart (jsonLoads : String → Option α) (part : String) : Option α :=
  if !(pyStartsWith (statusLineOf part) "201") then none
  else
    match extractJsonText part with
    | some s => jsonLoads s
    | none => none

/-- `ODataClient._parse_batch_response`: decode every part after the preamble,
then pad with `none` up to `expected_count` and truncate to `expected_count`. -/
def _parse_batch_response (jsonLoads : String → Option α) (response_text : String)
    (expected_count : Nat) : List (Option α) :=
  let results := (batchParts response_text).map (parsePart jsonLoads)
  (results ++ List.replicate (expected_count - results.length) none).take expected_count

/-! ## CRUD Dispatcher — list creation (`ODataClient.create` / `_create_batch`)

`create`, on a `list` input, returns `[]` for an empty list and otherwise calls
`_create_batch`, which walks the list in slices of `batch_size = 25` and runs
one batch request per slice, extending one results list in order. The batch
request itself (`_execute_batch_create`, a network round trip) is the
collaborator `execb`; the second component of the result is the trace of batch
requests issued, one entry (the slice sent) per network call.
-/

/-- The slices `records[i : i + batch_size]` taken by `_create_batch`'s loop
`for i in range(0, len(records), batch_size)`. Fuel makes the recursion
structural; fuel equal to the list length never runs out when `bs ≥ 1`. -/
def chunksGo (bs : Nat) : Nat → List α → List (List α)
  | _, [] => []
  | 0, _ :: _ => []
  | fuel + 1, x :: xs => (x :: xs).take bs :: chunksGo bs fuel ((x :: xs).drop bs)

/-- The consecutive slices of `l` of size at most `bs`. -/
def chunks (bs : Nat) (l : List α) : List (List α) :=
  chunksGo bs l.length l

/-- `ODataClient._create_batch`: empty input short-circuits to `[]`; otherwise
process the size-25 slices in order, concatenating the per-slice results.
Returns the results together with the trace of batch requests issued. -/
def _create_batch (execb : List ρ → List σ) (records : List ρ) :
    List σ × List (List ρ) :=
  if records.isEmpty then ([], [])
  else (chunks 25 records).foldl (fun acc b => (acc.1 ++ execb b, acc.2 ++ [b])) ([], [])

/-- The `list` branch of `ODataClient.create`: an empty list returns `[]`
before `_create_batch` (and hence before any network call); a non-empty list is
delegated to `_create_batch`. -/
def create_list_branch (execb : List ρ → List σ) (data : List ρ) :
    List σ × List (List ρ) :=
  if data.isEmpty then ([], [])
  else _create_batch execb data

/-! ## Observable events

Side effects of the resilience layer, the readiness poll, table creation and
the SQL query path, reified as an event trace: sleeping for a duration, calling
the wrapped operation of `backoff_retry`, issuing an entity-lookup or
entity-creation network request, attempting a JSON parse.
-/

/-- One observable side effect. -/
inductive Ev
  | sleep (d : Nat)
  | attempt (k : Nat)
  | lookupCall (s : String)
  | postEntityCall (s : String)
  | jsonParse (s : String)
deriving DecidableEq, Repr

/-- Is this event an invocation of the wrapped/polled operation?
(`attempt` for `backoff_retry`, `lookupCall` for the readiness poll.) -/
def isAttemptEv : Ev → Bool
  | Ev.attempt _ => true
  | Ev.lookupCall _ => true
  | _ => false

/-- Is this event a sleep? -/
def isSleepEv : Ev → Bool
  | Ev.sleep _ => true
  | _ => false

/-- No sleep event occurs before the first operation invocation of a trace. -/
def noInitialSleep (tr : List Ev) : Bool :=
  (tr.takeWhile (fun e => !(isAttemptEv e))).all (fun e => !(isSleepEv e))

/-- Every sleep event of a trace is immediately followed by an operation
invocation: sleeping only ever happens right before an attempt. -/
def sleepsPrecedeAttempts : List Ev → Bool
  | [] => true
  | Ev.sleep _ :: rest =>
    (match rest with
     | e :: _ => isAttemptEv e
     | [] => false) && sleepsPrecedeAttempts rest
  | _ :: rest => sleepsPrecedeAttempts rest

/-- The number of operation invocations recorded in a trace. -/
def attemptCount (tr : List Ev) : Nat :=
  (tr.filter isAttemptEv).length

/-! ## Resilience Layer (`backoff_retry` in examples/quickstart.py)

The wrapped operation is modelled as `op : Nat → Except PyExc α`, giving the
outcome of its `k`-th invocation. A Python exception is abstracted to the data
the retry decision looks at: whether it is a `requests` `HTTPError` and the
status code of its response, if any.
-/

/-- The face of a Python exception that `backoff_retry` inspects. -/
structure PyExc where
  isHTTPError : Bool
  statusCode : Option Nat
deriving DecidableEq, Repr

/-- The retry decision of `backoff_retry`'s `except` block: retry when the
custom predicate (if supplied) accepts the failure, or when the failure is an
`HTTPError` whose status code is in the retryable set; otherwise stop. -/
def shouldRetry (retry_if : Option (PyExc → Bool)) (retry_http_statuses : List Nat)
    (ex : PyExc) : Bool :=
  if (match retry_if with | some p => p ex | none => false) then true
  else if ex.isHTTPError then
    (match ex.statusCode with | some c => retry_http_statuses.contains c | none => false)
  else false

/-- The loop of `backoff_retry`: for each delay, sleep when the delay is
non-zero (note: also on the very first iteration), invoke the operation, return
its value on success, and on failure either continue (retryable) or re-raise at
once (non-retryable); when the delays are exhausted re-raise the last failure.
`Except.ok none` is Python's implicit `None` return for an empty delay
sequence. -/
def backoff_go (op : Nat → Except PyExc α) (retry_if : Option (PyExc → Bool))
    (retry_http_statuses : List Nat) :
    List Nat → Nat → Option PyExc → Except PyExc (Option α) × List Ev
  | [], _, last =>
    ((match last with
      | some e => Except.error e
      | none => Except.ok none), [])
  | d :: rest, k, _ =>
    let pre := (if d ≠ 0 then [Ev.sleep d] else []) ++ [Ev.attempt k]
    match op k with
    | Except.ok v => (Except.ok (some v), pre)
    | Except.error ex =>
      if shouldRetry retry_if retry_http_statuses ex then
        let r := backoff_go op retry_if retry_http_statuses rest (k + 1) (some ex)
        (r.1, pre ++ r.2)
      else (Except.error ex, pre)

/-- `backoff_retry` from examples/quickstart.py. -/
def backoff_retry (op : Nat → Except PyExc α) (retry_if : Option (PyExc → Bool))
    (retry_http_statuses : List Nat) (delays : List Nat) :
    Except PyExc (Option α) × List Ev :=
  backoff_go op retry_if retry_http_statuses delays 0 none

/-! ## Metadata Provisioner (`ODataClient._wait_for_entity_ready`, `create_table`)

The `EntityDefinitions` lookup is the collaborator
`lookup : Nat → String → Option EntityMeta`, giving the entity record (if any)
that the `n`-th lookup call for a schema name returns; a returned record is the
selected non-empty dictionary `items[0]`, hence truthy. The entity-creation
POST is the collaborator `post`.
-/

/-- The fields of an entity record that the client selects and reads. -/
structure EntityMeta where
  metadataId : Option String
  logicalName : Option String
  schemaName : Option String
  entitySetName : Option String
deriving DecidableEq, Repr

/-- Truthiness of `ent.get("EntitySetName")`: present and a non-empty string. -/
def entReady (e : EntityMeta) : Bool :=
  match e.entitySetName with
  | some s => !(s == "")
  | none => false

/-- The default delay sequence of `_wait_for_entity_ready`. -/
def waitDelaysDefault : List Nat := [0, 2, 5, 10, 20, 30]

/-- The loop of `_wait_for_entity_ready`: for `idx, delay` over the delays,
sleep when `idx > 0` and the delay is positive, look the schema name up, and
return the entity as soon as it is truthy with a truthy `EntitySetName`;
exhaustion returns the last lookup result. `n` numbers the lookup calls;
the trace records sleeps and lookup network calls. -/
def wait_go (lookup : Nat → String → Option EntityMeta) (s : String) :
    List Nat → Nat → Nat → Option EntityMeta → Option EntityMeta × Nat × List Ev
  | [], _, n, last => (last, n, [])
  | d :: rest, idx, n, _ =>
    let pre := (if idx > 0 && d > 0 then [Ev.sleep d] else []) ++ [Ev.lookupCall s]
    let ent := lookup n s
    if (match ent with | some e => entReady e | none => false) then
      (ent, n + 1, pre)
    else
      let r := wait_go lookup s rest (idx + 1) (n + 1) ent
      (r.1, r.2.1, pre ++ r.2.2)

/-- `ODataClient._wait_for_entity_ready`; `delays or [0, 2, 5, 10, 20, 30]`
replaces both `None` and an empty list by the default sequence. `n0` is the
index of the first lookup call made. -/
def _wait_for_entity_ready (lookup : Nat → String → Option EntityMeta) (s : String)
    (delays : Option (List Nat)) (n0 : Nat) : Option EntityMeta × Nat × List Ev :=
  let ds := match delays with
    | some l => if l.isEmpty then waitDelaysDefault else l
    | none => waitDelaysDefault
  wait_go lookup s ds 0 n0 none

/-! ## Identifier extraction (`ODataClient._extract_id`)

A created record is a dictionary; its values are abstracted to the shapes
`_extract_id` distinguishes (a string, or anything else). The function returns
the value of the first field whose key lowercases to an `"id"` suffix and whose
string value, once stripped, fully matches the 36-character `[0-9a-fA-F-]`
pattern; otherwise it raises `RuntimeError`, modelled as `Except.error`, which
is a different Python type from the transport's `requests.HTTPError`.
-/

/-- A Python value as far as `_extract_id` and `query_sql` distinguish them. -/
inductive PyVal
  | str (s : String)
  | int (n : Int)
  | bool (b : Bool)
  | nil
  | other
deriving DecidableEq, Repr

/-- One character of the `r"[0-9a-fA-F-]{36}"` character class. -/
def guidChar (c : Char) : Bool :=
  ('0' ≤ c && c ≤ '9') || ('a' ≤ c && c ≤ 'f') || ('A' ≤ c && c ≤ 'F') || c == '-'

/-- `re.fullmatch(r"[0-9a-fA-F-]{36}", s)`: exactly 36 characters, all from the
class. -/
def isGuidShape (s : String) : Bool :=
  s.data.length == 36 && s.data.all guidChar

/-- Does one `(key, value)` field satisfy the selection test of
`_extract_id`'s loop? (`isinstance(k, str)` always holds here since keys are
modelled as strings.) -/
def idFieldMatch : String × PyVal → Bool
  | (k, PyVal.str v) => pyEndsWith (pyLower k) "id" && isGuidShape (pyStrip v)
  | _ => false

/-- The scanning loop of `_extract_id`: return the (unstripped) value of the
first matching field. -/
def extract_id_go : List (String × PyVal) → Option String
  | [] => none
  | (k, v) :: rest =>
    if idFieldMatch (k, v) then
      (match v with
       | PyVal.str s => some s
       | _ => none)
    else extract_id_go rest

/-- The `RuntimeError` message of `_extract_id`. -/
def extractIdErrMsg : String :=
  "Could not determine created record id from returned representation"

/-- `ODataClient._extract_id` on a dictionary record. -/
def _extract_id (record : List (String × PyVal)) : Except String String :=
  match extract_id_go record with
  | some v => Except.ok v
  | none => Except.error extractIdErrMsg

/-! ## Key formatting (`ODataClient._format_key`) -/

/-- `ODataClient._format_key`: strip the key; a key already wrapped in
parentheses passes through, anything else is wrapped (the 36-character test of
the source selects between two identical branches and is kept as written). -/
def _format_key (key : String) : String :=
  let k := pyStrip key
  if pyStartsWith k "(" && pyEndsWith k ")" then k
  else if k.length == 36 && pyContainsChar k '-' then
    String.mk ('(' :: k.data ++ [')'])
  else
    String.mk ('(' :: k.data ++ [')'])

/-! ## Type Mapping Table (`ODataClient._attribute_payload`, `_to_pascal`) -/

/-- An attribute-definition payload, abstracted to its `@odata.type` together
with the data that distinguishes one payload from another at this level: the
schema name and, for the string case, the primary-name flag. -/
inductive AttrPayload
  | stringAttr (schemaName : String) (isPrimaryName : Bool)
  | integerAttr (schemaName : String)
  | decimalAttr (schemaName : String)
  | doubleAttr (schemaName : String)
  | dateTimeAttr (schemaName : String)
  | booleanAttr (schemaName : String)
deriving DecidableEq, Repr

/-- `ODataClient._attribute_payload`: case-insensitive mapping from a semantic
type tag to an attribute payload; unrecognized tags yield `none`. -/
def _attribute_payload (schema_name : String) (dtype : String)
    (is_primary_name : Bool) : Option AttrPayload :=
  let dtype_l := pyStrip (pyLower dtype)
  if dtype_l == "string" || dtype_l == "text" then
    some (AttrPayload.stringAttr schema_name is_primary_name)
  else if dtype_l == "int" || dtype_l == "integer" then
    some (AttrPayload.integerAttr schema_name)
  else if dtype_l == "decimal" || dtype_l == "money" then
    some (AttrPayload.decimalAttr schema_name)
  else if dtype_l == "float" || dtype_l == "double" then
    some (AttrPayload.doubleAttr schema_name)
  else if dtype_l == "datetime" || dtype_l == "date" then
    some (AttrPayload.dateTimeAttr schema_name)
  else if dtype_l == "bool" || dtype_l == "boolean" then
    some (AttrPayload.booleanAttr schema_name)
  else none

/-- Is `c` in the class `[A-Za-z0-9]`? -/
def isAlnumAscii (c : Char) : Bool :=
  ('A' ≤ c && c ≤ 'Z') || ('a' ≤ c && c ≤ 'z') || ('0' ≤ c && c ≤ '9')

/-- `p[:1].upper() + p[1:]`. -/
def capitalizeRun : List Char → List Char
  | [] => []
  | c :: rest => c.toUpper :: rest

/-- `ODataClient._to_pascal`: split on runs of non-alphanumeric characters,
capitalize each non-empty piece, concatenate. -/
def _to_pascal (name : String) : String :=
  let parts := (name.data.splitOnP (fun c => !(isAlnumAscii c))).filter (fun p => !(p.isEmpty))
  String.mk (parts.map capitalizeRun).flatten

/-- `s.split("_", 1)[0]`: the segment before the first underscore. -/
def firstSegUnderscore (s : String) : String :=
  String.mk (s.data.takeWhile (fun c => !(c == '_')))

/-! ## Metadata Provisioner — table creation (`ODataClient.create_table`,
`_create_entity`)

`create_table` derives the entity schema name, looks it up and fails fast when
the table already exists; otherwise it builds the primary-name attribute and
one attribute per schema column (an unsupported column type is a `ValueError`
before any network call), POSTs the entity definition and polls for readiness,
then polls once more and assembles the result. The trace records the lookup
and entity-creation network calls and the poll sleeps.
-/

/-- The column loop of `create_table`: build the attribute payload and the
`created_cols` entry for each `(column, dtype)` pair, failing with the
`ValueError` message on an unsupported type. -/
def build_attributes (entity_schema : String) :
    List (String × String) → Except String (List AttrPayload × List String)
  | [] => Except.ok ([], [])
  | (col_name, dtype) :: rest =>
    let publisher := if pyContainsChar entity_schema '_' then firstSegUnderscore entity_schema
      else "new"
    let attr_schema := publisher ++ "_" ++ _to_pascal col_name
    match _attribute_payload attr_schema dtype false with
    | none => Except.error ("Unsupported column type '" ++ dtype ++ "' for '" ++ col_name ++ "'.")
    | some payload =>
      match build_attributes entity_schema rest with
      | Except.error e => Except.error e
      | Except.ok (ps, cols) => Except.ok (payload :: ps, attr_schema :: cols)

/-- `ODataClient._create_entity`: POST the entity definition (the collaborator
`post` gives the outcome of `raise_for_status`), then poll for readiness with
the default delays; a missing entity or missing `EntitySetName` is a
`RuntimeError`, otherwise the `MetadataId` is returned (`ent["MetadataId"]`
would be a `KeyError` if absent). `n0` numbers the next lookup call. -/
def _create_entity (lookup : Nat → String → Option EntityMeta)
    (post : String → List AttrPayload → Except String Unit)
    (schema_name : String) (attributes : List AttrPayload) (n0 : Nat) :
    Except String String × Nat × List Ev :=
  match post schema_name attributes with
  | Except.error e => (Except.error e, n0, [Ev.postEntityCall schema_name])
  | Except.ok _ =>
    let r := _wait_for_entity_ready lookup schema_name none n0
    let tr := Ev.postEntityCall schema_name :: r.2.2
    match r.1 with
    | some e =>
      if entReady e then
        (match e.metadataId with
         | some mid => (Except.ok mid, r.2.1, tr)
         | none => (Except.error "KeyError: MetadataId", r.2.1, tr))
      else
        (Except.error ("Failed to create or retrieve entity '" ++ schema_name ++
          "' (EntitySetName not available)."), r.2.1, tr)
    | none =>
      (Except.error ("Failed to create or retrieve entity '" ++ schema_name ++
        "' (EntitySetName not available)."), r.2.1, tr)

/-- The dictionary `create_table` returns. -/
structure CreateTableResult where
  entity_schema : String
  entity_logical_name : Option String
  entity_set_name : Option String
  metadata_id : String
  columns_created : List String
deriving DecidableEq, Repr

/-- `ODataClient.create_table`. The first lookup is the fail-fast existence
check; the primary-name attribute always heads the attribute list (the
`"string"` payload is always present, so `Option.toList` keeps it). -/
def create_table (lookup : Nat → String → Option EntityMeta)
    (post : String → List AttrPayload → Except String Unit)
    (tablename : String) (schema : List (String × String)) :
    Except String CreateTableResult × List Ev :=
  let entity_schema := if pyContainsChar tablename '_' then tablename
    else "new_" ++ _to_pascal tablename
  let ent := lookup 0 entity_schema
  let tr0 := [Ev.lookupCall entity_schema]
  match ent with
  | some _ =>
    (Except.error ("Table '" ++ entity_schema ++ "' already exists. No update performed."), tr0)
  | none =>
    let primary_attr_schema := if !(pyContainsChar entity_schema '_') then "new_Name"
      else firstSegUnderscore entity_schema ++ "_Name"
    match build_attributes entity_schema schema with
    | Except.error e => (Except.error e, tr0)
    | Except.ok (cols, created_cols) =>
      let attributes := (_attribute_payload primary_attr_schema "string" true).toList ++ cols
      let r1 := _create_entity lookup post entity_schema attributes 1
      match r1.1 with
      | Except.error e => (Except.error e, tr0 ++ r1.2.2)
      | Except.ok metadata_id =>
        let r2 := _wait_for_entity_ready lookup entity_schema none r1.2.1
        (Except.ok
          { entity_schema := entity_schema
            entity_logical_name := (match r2.1 with
              | some e => e.logicalName
              | none => none)
            entity_set_name := (match r2.1 with
              | some e => e.entitySetName
              | none => none)
            metadata_id := metadata_id
            columns_created := created_cols },
         tr0 ++ r1.2.2 ++ r2.2.2)

/-! ## SQL query (`ODataClient.query_sql`)

Only the response-envelope handling after a successful POST is in scope: the
envelope either lacks the `"queryresult"` key, carries `null`, carries a
string, or carries something else. `json.loads` on the stripped string is the
collaborator `jsonLoadsList` (per the envelope contract it produces the row
list); its failure propagates as an error. The trace records the parse
attempt. -/

/-- The observable shapes of the `"queryresult"` member of the envelope. -/
inductive QueryResultField
  | absent
  | null
  | str (s : String)
  | other
deriving DecidableEq, Repr

/-- The envelope handling of `ODataClient.query_sql` (the name of the custom
API, used only in the missing-key message, is `api_name`). -/
def query_sql (jsonLoadsList : String → Except String (List PyVal)) (api_name : String)
    (q : QueryResultField) : Except String (List PyVal) × List Ev :=
  match q with
  | QueryResultField.absent =>
    (Except.error (api_name ++ " response missing 'queryresult'."), [])
  | QueryResultField.null => (Except.ok [], [])
  | QueryResultField.str s =>
    let s' := pyStrip s
    if s' == "" then (Except.ok [], [])
    else (jsonLoadsList s', [Ev.jsonParse s'])
  | QueryResultField.other =>
    (Except.error "Unexpected queryresult type", [])

/-! ## Concrete inputs used to instantiate the hypothesis-bearing theorems -/

/-- A synthetic batch response: one `201` part with a valid JSON body followed
by one `400` part, in the wire shape of §6 (segments delimited by literal
`HTTP/1.1 ` markers). -/
def sampleBatchText : String :=
  "--batchresponse_b1\r\nContent-Type: multipart/mixed\r\n\r\nHTTP/1.1 201 Created\r\nContent-Type: application/json\r\n\r\n\x7b\"a\": 1\x7d\r\n--changeset_c1\r\nHTTP/1.1 400 Bad Request\r\nContent-Type: application/json\r\n\r\n\x7b\"error\": \"x\"\x7d\r\n--changeset_c1--\r\n--batchresponse_b1--"

/-- A concrete JSON parser for the sample: recognizes exactly the body embedded
in `sampleBatchText`. -/
def sampleLoads : String → Option Nat :=
  fun s => if s == "\x7b\"a\": 1\x7d" then some 1 else none

/-- An operation that always fails with a retryable HTTP 503 failure. -/
def sampleRetryOp : Nat → Except PyExc Nat :=
  fun _ => Except.error (PyExc.mk true (some 503))

/-- An operation that always fails with a non-HTTP (hence non-retryable)
failure. -/
def sampleFatalOp : Nat → Except PyExc Nat :=
  fun _ => Except.error (PyExc.mk false none)

/-- A lookup that always finds a ready entity record. -/
def sampleLookupFound : Nat → String → Option EntityMeta :=
  fun _ _ => some (EntityMeta.mk (some "mid-1") (some "new_sampleitem")
    (some "new_SampleItem") (some "new_sampleitems"))

/-- An entity-creation POST that always succeeds. -/
def samplePost : String → List AttrPayload → Except String Unit :=
  fun _ _ => Except.ok ()

/-- The per-iteration trace blocks of `backoff_retry`, one block per attempted
delay, starting at attempt number `k`: before each attempt — including the
first — the wrapper sleeps that attempt's configured delay exactly when it is
non-zero (`if delay: time.sleep(delay)`), then invokes the operation. -/
def backoffSleepBlocks : List Nat → Nat → List Ev
  | [], _ => []
  | d :: rest, k =>
    ((if d ≠ 0 then [Ev.sleep d] else []) ++ [Ev.attempt k])
      ++ backoffSleepBlocks rest (k + 1)

/-- The per-iteration trace blocks of `_wait_for_entity_ready`, one block per
attempted delay, starting at iteration `idx`: before each attempt after the
first the poll sleeps that attempt's configured delay exactly when it is
positive (`if idx > 0 and delay > 0`), then issues the lookup; iteration 0
never sleeps. -/
def waitSleepBlocks (s : String) : List Nat → Nat → List Ev
  | [], _ => []
  | d :: rest, idx =>
    ((if idx > 0 && d > 0 then [Ev.sleep d] else []) ++ [Ev.lookupCall s])
      ++ waitSleepBlocks s rest (idx + 1)

/-- `delays or [0, 2, 5, 10, 20, 30]` as `_wait_for_entity_ready` computes its
effective delay sequence (both `None` and the empty list give the default). -/
def waitDelays (delays : Option (List Nat)) : List Nat :=
  match delays with
  | some l => if l.isEmpty then waitDelaysDefault else l
  | none => waitDelaysDefault

/-! # Theorems -/

/-! ## Shared positional lemmas about the decoder -/

theorem getD_replicate_none (n i : Nat) :
    (List.replicate n (none : Option α)).getD i none = none := by
  induction n generalizing i with
  | zero => simp
  | succ m ih =>
    cases i with
    | zero => simp [List.replicate_succ]
    | succ j => simp [List.replicate_succ, ih]

theorem getD_append_replicate_take (l : List (Option α)) (n i : Nat) (hi : i < n) :
    ((l ++ List.replicate (n - l.length) (none : Option α)).take n).getD i none
      = l.getD i none := by
  induction l generalizing n i with
  | nil =>
    simp only [List.nil_append, List.length_nil, Nat.sub_zero, List.getD_nil]
    rw [List.take_of_length_le (by simp)]
    exact getD_replicate_none n i
  | cons x xs ih =>
    cases n with
    | zero => omega
    | succ m =>
      cases i with
      | zero => simp
      | succ j =>
        have hj : j < m := Nat.lt_of_succ_lt_succ hi
        simpa using ih m j hj

theorem getD_map_eq_dite (f : β → Option γ) (l : List β) (i : Nat) :
    (l.map f).getD i none
      = (if h : i < l.length then f (l.get ⟨i, h⟩) else none) := by
  induction l generalizing i with
  | nil => simp
  | cons x xs ih =>
    cases i with
    | zero => simp
    | succ j => simpa [Nat.succ_lt_succ_iff] using ih j

theorem parse_batch_getD (f : String → Option α) (t : String) (n i : Nat) (hi : i < n) :
    (_parse_batch_response f t n).getD i none
      = (if h : i < (batchParts t).length then parsePart f ((batchParts t).get ⟨i, h⟩)
         else none) := by
  unfold _parse_batch_response
  rw [getD_append_replicate_take _ _ _ hi, getD_map_eq_dite]

theorem parsePart_of_status_not_201 (f : String → Option α) (part : String)
    (hs : pyStartsWith (statusLineOf part) "201" = false) :
    parsePart f part = none := by
  simp [parsePart, hs]

theorem parsePart_of_status_201 (f : String → Option α) (part s : String)
    (hs : pyStartsWith (statusLineOf part) "201" = true)
    (hex : extractJsonText part = some s) :
    parsePart f part = f s := by
  simp [parsePart, hs, hex]

/-! ## C1 — decode yields exactly the expected count, in input order -/

/-- C1: for every batch response text, JSON parser and expected count `n`,
`_parse_batch_response` returns exactly `n` entries; entry `i` is the decoding
of part `i` (input order) when the response has at least `i + 1` parts, and a
padding `none` otherwise — so short part lists are padded with nulls and long
ones truncated to `n`. -/
theorem batch_decode_yields_expected_count (f : String → Option α) (t : String) (n : Nat) :
    (_parse_batch_response f t n).length = n
    ∧ ∀ i, i < n → (_parse_batch_response f t n).getD i none
        = (if h : i < (batchParts t).length then parsePart f ((batchParts t).get ⟨i, h⟩)
           else none) := by
  constructor
  · simp only [_parse_batch_response, List.length_take, List.length_append,
      List.length_replicate, List.length_map]
    omega
  · intro i hi
    exact parse_batch_getD f t n i hi

set_option maxRecDepth 1000000 in
/-- Witness for C1 at the concrete sample with expected count 4 (two parts are
present; positions 2 and 3 are padding). -/
theorem batch_decode_yields_expected_count_witness :
    (_parse_batch_response sampleLoads sampleBatchText 4).length = 4
    ∧ (_parse_batch_response sampleLoads sampleBatchText 4).getD 2 none
        = (if h : 2 < (batchParts sampleBatchText).length then
            parsePart sampleLoads ((batchParts sampleBatchText).get ⟨2, h⟩)
           else none) :=
  ⟨(batch_decode_yields_expected_count sampleLoads sampleBatchText 4).1,
   (batch_decode_yields_expected_count sampleLoads sampleBatchText 4).2 2 (by decide)⟩

/-! ## C2 — per-part isolation: non-201 and unparseable parts yield nulls -/

/-- C2: at every position `i` backed by an actual response part, the decoded
entry depends only on that part: a status line not starting with `201` yields
`none` there (siblings are unaffected), a `201` part whose extracted body
parses yields that record, and a JSON parse failure on a `201` part yields
`none` at that position instead of an exception (the decoder is total). -/
theorem batch_decode_per_part_nulls (f : String → Option α) (t : String) (n i : Nat)
    (hi : i < n) (hp : i < (batchParts t).length) :
    (pyStartsWith (statusLineOf ((batchParts t).get ⟨i, hp⟩)) "201" = false →
      (_parse_batch_response f t n).getD i none = none)
    ∧ (∀ s, pyStartsWith (statusLineOf ((batchParts t).get ⟨i, hp⟩)) "201" = true →
        extractJsonText ((batchParts t).get ⟨i, hp⟩) = some s → f s = none →
        (_parse_batch_response f t n).getD i none = none)
    ∧ (∀ s r, pyStartsWith (statusLineOf ((batchParts t).get ⟨i, hp⟩)) "201" = true →
        extractJsonText ((batchParts t).get ⟨i, hp⟩) = some s → f s = some r →
        (_parse_batch_response f t n).getD i none = some r) := by
  have key : (_parse_batch_response f t n).getD i none
      = parsePart f ((batchParts t).get ⟨i, hp⟩) := by
    rw [parse_batch_getD f t n i hi, dif_pos hp]
  refine ⟨?_, ?_, ?_⟩
  · intro hs
    rw [key, parsePart_of_status_not_201 f _ hs]
  · intro s hs hex hf
    rw [key, parsePart_of_status_201 f _ s hs hex, hf]
  · intro s r hs hex hf
    rw [key, parsePart_of_status_201 f _ s hs hex, hf]

set_option maxRecDepth 1000000 in
/-- Witness for C2 at the concrete sample: the `400` part (position 1) decodes
to `none` while its `201` sibling (position 0) decodes to the record. -/
theorem batch_decode_per_part_nulls_witness :
    (_parse_batch_response sampleLoads sampleBatchText 2).getD 1 none = none
    ∧ (_parse_batch_response sampleLoads sampleBatchText 2).getD 0 none = some 1 :=
  ⟨(batch_decode_per_part_nulls sampleLoads sampleBatchText 2 1 (by decide)
      (by decide)).1 (by decide),
   (batch_decode_per_part_nulls sampleLoads sampleBatchText 2 0 (by decide)
      (by decide)).2.2 "\x7b\"a\": 1\x7d" 1 (by decide) (by decide) (by decide)⟩

/-! ## C3/C4 — list dispatch: 25-record slices, order preserved, empty input -/

theorem chunksGo_flatten (bs : Nat) (hbs : 0 < bs) :
    ∀ (fuel : Nat) (l : List α), l.length ≤ fuel → (chunksGo bs fuel l).flatten = l := by
  intro fuel
  induction fuel with
  | zero =>
    intro l hl
    cases l with
    | nil => simp [chunksGo]
    | cons x xs => simp at hl
  | succ fuel ih =>
    intro l hl
    cases l with
    | nil => simp [chunksGo]
    | cons x xs =>
      have hdrop : ((x :: xs).drop bs).length ≤ fuel := by
        simp only [List.length_drop, List.length_cons]
        simp only [List.length_cons] at hl
        omega
      simp only [chunksGo, List.flatten_cons, ih _ hdrop]
      exact List.take_append_drop bs (x :: xs)

theorem chunksGo_length_25 :
    ∀ (fuel : Nat) (l : List α), l.length ≤ fuel →
      (chunksGo 25 fuel l).length = (l.length + 24) / 25 := by
  intro fuel
  induction fuel with
  | zero =>
    intro l hl
    cases l with
    | nil => simp [chunksGo]
    | cons x xs => simp at hl
  | succ fuel ih =>
    intro l hl
    cases l with
    | nil => simp [chunksGo]
    | cons x xs =>
      have hdrop : ((x :: xs).drop 25).length ≤ fuel := by
        simp only [List.length_drop, List.length_cons]
        simp only [List.length_cons] at hl
        omega
      simp only [chunksGo, List.length_cons, ih _ hdrop, List.length_drop]
      omega

theorem chunksGo_mem_length (bs : Nat) :
    ∀ (fuel : Nat) (l g : List α), g ∈ chunksGo bs fuel l → g.length ≤ bs := by
  intro fuel
  induction fuel with
  | zero =>
    intro l g hg
    cases l with
    | nil => simp [chunksGo] at hg
    | cons x xs => simp [chunksGo] at hg
  | succ fuel ih =>
    intro l g hg
    cases l with
    | nil => simp [chunksGo] at hg
    | cons x xs =>
      simp only [chunksGo, List.mem_cons] at hg
      cases hg with
      | inl h => subst h; simp [List.length_take]
      | inr h => exact ih _ g h

theorem create_batch_foldl_eq (execb : List ρ → List σ) :
    ∀ (gs : List (List ρ)) (a : List σ) (tb : List (List ρ)),
      gs.foldl (fun acc b => (acc.1 ++ execb b, acc.2 ++ [b])) (a, tb)
        = (a ++ (gs.map execb).flatten, tb ++ gs) := by
  intro gs
  induction gs with
  | nil => intro a tb; simp
  | cons g gs ih => intro a tb; simp [ih]

/-- C3: on every non-empty record list, the `create` list branch takes exactly
the consecutive 25-record slices, issues one batch request per slice in order
(the trace is the slice list), and returns the concatenation of the per-slice
results; there are `⌈M/25⌉` slices, each of at most 25 records, and their
concatenation is the original list, so record order is preserved. -/
theorem create_list_chunks_of_25 (execb : List ρ → List σ) (records : List ρ)
    (h : records ≠ []) :
    create_list_branch execb records
      = (((chunks 25 records).map execb).flatten, chunks 25 records)
    ∧ (chunks 25 records).length = (records.length + 24) / 25
    ∧ (∀ g ∈ chunks 25 records, g.length ≤ 25)
    ∧ (chunks 25 records).flatten = records := by
  have hne : records.isEmpty = false := by
    cases records with
    | nil => simp at h
    | cons x xs => rfl
  refine ⟨?_, ?_, ?_, ?_⟩
  · simp [create_list_branch, _create_batch, hne, create_batch_foldl_eq]
  · exact chunksGo_length_25 records.length records (Nat.le_refl _)
  · intro g hg
    exact chunksGo_mem_length 25 records.length records g hg
  · exact chunksGo_flatten 25 (by omega) records.length records (Nat.le_refl _)

/-- Witness for C3 on 30 concrete records: two slices (of 25 and 5), results
concatenated in order, slices flattening back to the input. -/
theorem create_list_chunks_of_25_witness :
    create_list_branch (fun g => g) (List.range 30)
      = (((chunks 25 (List.range 30)).map (fun g => g)).flatten, chunks 25 (List.range 30))
    ∧ (chunks 25 (List.range 30)).length = 2
    ∧ (chunks 25 (List.range 30)).flatten = List.range 30 := by
  have h := create_list_chunks_of_25 (fun g : List Nat => g) (List.range 30) (by decide)
  exact ⟨h.1, by rw [(h.2.1 : _ = ((List.range 30).length + 24) / 25)]; decide, h.2.2.2⟩

/-- C4: `create` on an empty list returns the empty list, and the trace of
batch network requests is empty — the transport collaborator is never
invoked. -/
theorem create_empty_list_no_network (execb : List ρ → List σ) :
    create_list_branch execb ([] : List ρ) = ([], []) := rfl

/-! ## C5 — retry attempt counts and surfaced failures -/

/-- C5: with delays `(0, 2, 5)` and an operation whose every failure is
classified retryable, `backoff_retry` makes exactly 3 attempts and re-raises
the failure of the last attempt; with a failure classified non-retryable on
the first attempt (any delay sequence with at least one entry), it makes
exactly 1 attempt and re-raises that failure. -/
theorem backoff_retry_attempt_bounds (op1 op2 : Nat → Except PyExc α)
    (e : Nat → PyExc) (e0 : PyExc) (ri1 ri2 : Option (PyExc → Bool))
    (st1 st2 : List Nat) (d : Nat) (rest : List Nat)
    (hop1 : ∀ k, op1 k = Except.error (e k))
    (hr1 : ∀ k, shouldRetry ri1 st1 (e k) = true)
    (hop2 : op2 0 = Except.error e0)
    (hr2 : shouldRetry ri2 st2 e0 = false) :
    ((backoff_retry op1 ri1 st1 [0, 2, 5]).1 = Except.error (e 2)
      ∧ attemptCount (backoff_retry op1 ri1 st1 [0, 2, 5]).2 = 3)
    ∧ ((backoff_retry op2 ri2 st2 (d :: rest)).1 = Except.error e0
      ∧ attemptCount (backoff_retry op2 ri2 st2 (d :: rest)).2 = 1) := by
  constructor
  · have tr_eq : backoff_retry op1 ri1 st1 [0, 2, 5]
        = (Except.error (e 2),
           [Ev.attempt 0, Ev.sleep 2, Ev.attempt 1, Ev.sleep 5, Ev.attempt 2]) := by
      simp [backoff_retry, backoff_go, hop1 0, hop1 1, hop1 2, hr1 0, hr1 1, hr1 2]
    rw [tr_eq]
    exact ⟨rfl, rfl⟩
  · by_cases hd : d = 0
    · subst hd
      have tr_eq : backoff_retry op2 ri2 st2 (0 :: rest)
          = (Except.error e0, [Ev.attempt 0]) := by
        simp [backoff_retry, backoff_go, hop2, hr2]
      rw [tr_eq]
      exact ⟨rfl, rfl⟩
    · have tr_eq : backoff_retry op2 ri2 st2 (d :: rest)
          = (Except.error e0, [Ev.sleep d, Ev.attempt 0]) := by
        simp [backoff_retry, backoff_go, hop2, hr2, hd]
      rw [tr_eq]
      exact ⟨rfl, rfl⟩

/-- Witness for C5: a persistent HTTP 503 with 503 retryable runs all 3
attempts of `(0, 2, 5)`; a non-HTTP failure stops after 1 attempt. -/
theorem backoff_retry_attempt_bounds_witness :
    ((backoff_retry sampleRetryOp none [503] [0, 2, 5]).1
        = Except.error (PyExc.mk true (some 503))
      ∧ attemptCount (backoff_retry sampleRetryOp none [503] [0, 2, 5]).2 = 3)
    ∧ ((backoff_retry sampleFatalOp none [503] [0, 2, 5]).1
        = Except.error (PyExc.mk false none)
      ∧ attemptCount (backoff_retry sampleFatalOp none [503] [0, 2, 5]).2 = 1) :=
  backoff_retry_attempt_bounds sampleRetryOp sampleFatalOp
    (fun _ => PyExc.mk true (some 503)) (PyExc.mk false none) none none [503] [503]
    0 [2, 5] (fun _ => rfl) (fun _ => rfl) rfl (by decide)

/-! ## C6 — sleep discipline of the two retry sites (corrected) -/

theorem spa_cons_of_attempt (e : Ev) (he : isAttemptEv e = true) (tr : List Ev) :
    sleepsPrecedeAttempts (e :: tr) = sleepsPrecedeAttempts tr := by
  cases e with
  | sleep d => simp [isAttemptEv] at he
  | attempt k => rfl
  | lookupCall s => rfl
  | postEntityCall s => rfl
  | jsonParse s => rfl

theorem spa_sleep_cons (d : Nat) (e : Ev) (tr : List Ev) :
    sleepsPrecedeAttempts (Ev.sleep d :: e :: tr)
      = (isAttemptEv e && sleepsPrecedeAttempts (e :: tr)) := by
  simp [sleepsPrecedeAttempts]

theorem spa_nil : sleepsPrecedeAttempts [] = true := rfl

/-- The sleep events of one `(optional sleep) ++ [attempt]` block followed by a
tail: each is either the block's own delay (which is then non-zero) or a sleep
of the tail. -/
theorem trace_block_mem (d k : Nat) (tail : List Ev) (d' : Nat)
    (h : Ev.sleep d' ∈ ((if d ≠ 0 then [Ev.sleep d] else []) ++ [Ev.attempt k]) ++ tail) :
    (d' = d ∧ d ≠ 0) ∨ Ev.sleep d' ∈ tail := by
  by_cases hd : d = 0
  · subst hd
    simp at h
    tauto
  · simp [hd] at h
    tauto

/-- `sleepsPrecedeAttempts` holds of one block followed by a well-formed tail. -/
theorem trace_block_spa (d k : Nat) (tail : List Ev)
    (hspa : sleepsPrecedeAttempts tail = true) :
    sleepsPrecedeAttempts (((if d ≠ 0 then [Ev.sleep d] else []) ++ [Ev.attempt k]) ++ tail)
      = true := by
  by_cases hd : d = 0
  · subst hd
    rw [if_neg (by simp)]
    simp only [List.nil_append, List.cons_append]
    rw [spa_cons_of_attempt (Ev.attempt k) rfl]
    exact hspa
  · rw [if_pos hd]
    simp only [List.cons_append, List.nil_append]
    rw [spa_sleep_cons, spa_cons_of_attempt (Ev.attempt k) rfl]
    simp [isAttemptEv, hspa]

theorem backoff_go_trace_cons_ok (op : Nat → Except PyExc α) (ri : Option (PyExc → Bool))
    (st : List Nat) (d : Nat) (rest : List Nat) (k : Nat) (last : Option PyExc) (v : α)
    (hop : op k = Except.ok v) :
    (backoff_go op ri st (d :: rest) k last).2
      = ((if d ≠ 0 then [Ev.sleep d] else []) ++ [Ev.attempt k]) ++ [] := by
  simp [backoff_go, hop]

theorem backoff_go_trace_cons_retry (op : Nat → Except PyExc α) (ri : Option (PyExc → Bool))
    (st : List Nat) (d : Nat) (rest : List Nat) (k : Nat) (last : Option PyExc) (ex : PyExc)
    (hop : op k = Except.error ex) (hr : shouldRetry ri st ex = true) :
    (backoff_go op ri st (d :: rest) k last).2
      = ((if d ≠ 0 then [Ev.sleep d] else []) ++ [Ev.attempt k])
        ++ (backoff_go op ri st rest (k + 1) (some ex)).2 := by
  simp [backoff_go, hop, hr]

theorem backoff_go_trace_cons_stop (op : Nat → Except PyExc α) (ri : Option (PyExc → Bool))
    (st : List Nat) (d : Nat) (rest : List Nat) (k : Nat) (last : Option PyExc) (ex : PyExc)
    (hop : op k = Except.error ex) (hr : shouldRetry ri st ex = false) :
    (backoff_go op ri st (d :: rest) k last).2
      = ((if d ≠ 0 then [Ev.sleep d] else []) ++ [Ev.attempt k]) ++ [] := by
  simp [backoff_go, hop, hr]

theorem backoff_go_trace_props (op : Nat → Except PyExc α) (ri : Option (PyExc → Bool))
    (st : List Nat) :
    ∀ (delays : List Nat) (k : Nat) (last : Option PyExc),
      (∀ d, Ev.sleep d ∈ (backoff_go op ri st delays k last).2 → d ∈ delays ∧ d ≠ 0)
      ∧ sleepsPrecedeAttempts (backoff_go op ri st delays k last).2 = true := by
  intro delays
  induction delays with
  | nil =>
    intro k last
    constructor
    · intro d hd
      simp [backoff_go] at hd
    · simp [backoff_go, sleepsPrecedeAttempts]
  | cons d rest ih =>
    intro k last
    have step : ∀ (tail : List Ev),
        (backoff_go op ri st (d :: rest) k last).2
          = ((if d ≠ 0 then [Ev.sleep d] else []) ++ [Ev.attempt k]) ++ tail →
        (∀ d', Ev.sleep d' ∈ tail → d' ∈ rest ∧ d' ≠ 0) →
        sleepsPrecedeAttempts tail = true →
        (∀ d', Ev.sleep d' ∈ (backoff_go op ri st (d :: rest) k last).2
            → d' ∈ d :: rest ∧ d' ≠ 0)
        ∧ sleepsPrecedeAttempts (backoff_go op ri st (d :: rest) k last).2 = true := by
      intro tail heq hmem hspa
      constructor
      · intro d' hd'
        rw [heq] at hd'
        rcases trace_block_mem d k tail d' hd' with ⟨h1, h2⟩ | h3
        · refine ⟨?_, ?_⟩
          · rw [h1]
            exact List.mem_cons_self d rest
          · rw [h1]
            exact h2
        · have := hmem d' h3
          exact ⟨List.mem_cons_of_mem d this.1, this.2⟩
      · rw [heq]
        exact trace_block_spa d k tail hspa
    cases hop : op k with
    | ok v =>
      exact step [] (backoff_go_trace_cons_ok op ri st d rest k last v hop)
        (by intro d' h; simp at h) spa_nil
    | error ex =>
      by_cases hr : shouldRetry ri st ex = true
      · exact step (backoff_go op ri st rest (k + 1) (some ex)).2
          (backoff_go_trace_cons_retry op ri st d rest k last ex hop hr)
          (ih (k + 1) (some ex)).1 (ih (k + 1) (some ex)).2
      · exact step [] (backoff_go_trace_cons_stop op ri st d rest k last ex hop
            (by simpa using hr))
          (by intro d' h; simp at h) spa_nil

theorem noInitialSleep_sleep_cons (d : Nat) (tr : List Ev) :
    noInitialSleep (Ev.sleep d :: tr) = false := by
  simp [noInitialSleep, List.takeWhile_cons, isAttemptEv, isSleepEv]

theorem noInitialSleep_attempt_cons (k : Nat) (tr : List Ev) :
    noInitialSleep (Ev.attempt k :: tr) = true := by
  simp [noInitialSleep, List.takeWhile_cons, isAttemptEv]

theorem noInitialSleep_lookup_cons (s : String) (tr : List Ev) :
    noInitialSleep (Ev.lookupCall s :: tr) = true := by
  simp [noInitialSleep, List.takeWhile_cons, isAttemptEv]

theorem backoff_initial_sleep (op : Nat → Except PyExc α) (ri : Option (PyExc → Bool))
    (st : List Nat) (d : Nat) (rest : List Nat) :
    (d ≠ 0 → (backoff_retry op ri st (d :: rest)).2.head? = some (Ev.sleep d)
      ∧ noInitialSleep (backoff_retry op ri st (d :: rest)).2 = false)
    ∧ (d = 0 → noInitialSleep (backoff_retry op ri st (d :: rest)).2 = true) := by
  have shape : ∃ tail : List Ev,
      (backoff_retry op ri st (d :: rest)).2
        = ((if d ≠ 0 then [Ev.sleep d] else []) ++ [Ev.attempt 0]) ++ tail := by
    unfold backoff_retry
    cases hop : op 0 with
    | ok v => exact ⟨[], backoff_go_trace_cons_ok op ri st d rest 0 none v hop⟩
    | error ex =>
      by_cases hr : shouldRetry ri st ex = true
      · exact ⟨_, backoff_go_trace_cons_retry op ri st d rest 0 none ex hop hr⟩
      · exact ⟨[], backoff_go_trace_cons_stop op ri st d rest 0 none ex hop
          (by simpa using hr)⟩
  obtain ⟨tail, heq⟩ := shape
  constructor
  · intro hd
    rw [heq, if_pos hd]
    simp only [List.cons_append, List.nil_append]
    exact ⟨rfl, noInitialSleep_sleep_cons d _⟩
  · intro hd
    subst hd
    rw [heq, if_neg (by simp)]
    simp only [List.nil_append, List.cons_append]
    exact noInitialSleep_attempt_cons 0 _

theorem wait_go_trace_cons_ready (lookup : Nat → String → Option EntityMeta) (s : String)
    (d : Nat) (rest : List Nat) (idx n : Nat) (last : Option EntityMeta)
    (hready : (match lookup n s with | some e => entReady e | none => false) = true) :
    (wait_go lookup s (d :: rest) idx n last).2.2
      = ((if idx > 0 && d > 0 then [Ev.sleep d] else []) ++ [Ev.lookupCall s]) ++ [] := by
  simp [wait_go, hready]

theorem wait_go_trace_cons_notready (lookup : Nat → String → Option EntityMeta) (s : String)
    (d : Nat) (rest : List Nat) (idx n : Nat) (last : Option EntityMeta)
    (hready : (match lookup n s with | some e => entReady e | none => false) = false) :
    (wait_go lookup s (d :: rest) idx n last).2.2
      = ((if idx > 0 && d > 0 then [Ev.sleep d] else []) ++ [Ev.lookupCall s])
        ++ (wait_go lookup s rest (idx + 1) (n + 1) (lookup n s)).2.2 := by
  simp [wait_go, hready]

theorem wait_block_mem (b : Bool) (d : Nat) (s : String) (tail : List Ev) (d' : Nat)
    (h : Ev.sleep d' ∈ ((if b then [Ev.sleep d] else []) ++ [Ev.lookupCall s]) ++ tail) :
    (d' = d ∧ b = true) ∨ Ev.sleep d' ∈ tail := by
  cases b
  · simp at h
    tauto
  · simp at h
    tauto

theorem wait_block_spa (b : Bool) (d : Nat) (s : String) (tail : List Ev)
    (hspa : sleepsPrecedeAttempts tail = true) :
    sleepsPrecedeAttempts (((if b then [Ev.sleep d] else []) ++ [Ev.lookupCall s]) ++ tail)
      = true := by
  cases b
  · simp only [Bool.false_eq_true, if_false, List.nil_append, List.cons_append]
    rw [spa_cons_of_attempt (Ev.lookupCall s) rfl]
    exact hspa
  · simp only [if_true, List.cons_append, List.nil_append]
    rw [spa_sleep_cons, spa_cons_of_attempt (Ev.lookupCall s) rfl]
    simp [isAttemptEv, hspa]

theorem wait_go_trace_props (lookup : Nat → String → Option EntityMeta) (s : String) :
    ∀ (delays : List Nat) (idx n : Nat) (last : Option EntityMeta),
      (∀ d, Ev.sleep d ∈ (wait_go lookup s delays idx n last).2.2 → d ∈ delays ∧ d ≠ 0)
      ∧ sleepsPrecedeAttempts (wait_go lookup s delays idx n last).2.2 = true := by
  intro delays
  induction delays with
  | nil =>
    intro idx n last
    constructor
    · intro d hd
      simp [wait_go] at hd
    · simp [wait_go, sleepsPrecedeAttempts]
  | cons d rest ih =>
    intro idx n last
    have hbd : ((idx > 0 && d > 0) = true) → d ≠ 0 := by
      intro hb
      simp only [Bool.and_eq_true, decide_eq_true_eq] at hb
      omega
    have step : ∀ (tail : List Ev),
        (wait_go lookup s (d :: rest) idx n last).2.2
          = ((if idx > 0 && d > 0 then [Ev.sleep d] else []) ++ [Ev.lookupCall s]) ++ tail →
        (∀ d', Ev.sleep d' ∈ tail → d' ∈ rest ∧ d' ≠ 0) →
        sleepsPrecedeAttempts tail = true →
        (∀ d', Ev.sleep d' ∈ (wait_go lookup s (d :: rest) idx n last).2.2
            → d' ∈ d :: rest ∧ d' ≠ 0)
        ∧ sleepsPrecedeAttempts (wait_go lookup s (d :: rest) idx n last).2.2 = true := by
      intro tail heq hmem hspa
      constructor
      · intro d' hd'
        rw [heq] at hd'
        rcases wait_block_mem (idx > 0 && d > 0) d s tail d' hd' with ⟨h1, h2⟩ | h3
        · refine ⟨?_, ?_⟩
          · rw [h1]
            exact List.mem_cons_self d rest
          · rw [h1]
            exact hbd h2
        · have := hmem d' h3
          exact ⟨List.mem_cons_of_mem d this.1, this.2⟩
      · rw [heq]
        exact wait_block_spa (idx > 0 && d > 0) d s tail hspa
    by_cases hready : (match lookup n s with | some e => entReady e | none => false) = true
    · exact step []
        (wait_go_trace_cons_ready lookup s d rest idx n last hready)
        (by intro d' h; simp at h) spa_nil
    · exact step (wait_go lookup s rest (idx + 1) (n + 1) (lookup n s)).2.2
        (wait_go_trace_cons_notready lookup s d rest idx n last (by simpa using hready))
        (ih (idx + 1) (n + 1) (lookup n s)).1 (ih (idx + 1) (n + 1) (lookup n s)).2

theorem wait_go_noInitialSleep (lookup : Nat → String → Option EntityMeta) (s : String)
    (delays : List Nat) (n : Nat) (last : Option EntityMeta) :
    noInitialSleep (wait_go lookup s delays 0 n last).2.2 = true := by
  cases delays with
  | nil => simp [wait_go, noInitialSleep]
  | cons d rest =>
    have hb : ((0 > 0 && d > 0) : Bool) = false := by simp
    by_cases hready : (match lookup n s with | some e => entReady e | none => false) = true
    · rw [wait_go_trace_cons_ready lookup s d rest 0 n last hready, hb]
      simp only [Bool.false_eq_true, if_false, List.nil_append, List.cons_append]
      exact noInitialSleep_lookup_cons s _
    · rw [wait_go_trace_cons_notready lookup s d rest 0 n last (by simpa using hready), hb]
      simp only [Bool.false_eq_true, if_false, List.nil_append, List.cons_append]
      exact noInitialSleep_lookup_cons s _

theorem wait_for_entity_ready_trace (lookup : Nat → String → Option EntityMeta)
    (s : String) (delaysOpt : Option (List Nat)) (n0 : Nat) :
    noInitialSleep (_wait_for_entity_ready lookup s delaysOpt n0).2.2 = true
    ∧ (∀ d, Ev.sleep d ∈ (_wait_for_entity_ready lookup s delaysOpt n0).2.2 → d ≠ 0)
    ∧ sleepsPrecedeAttempts (_wait_for_entity_ready lookup s delaysOpt n0).2.2 = true := by
  unfold _wait_for_entity_ready
  refine ⟨wait_go_noInitialSleep lookup s _ n0 none, ?_, ?_⟩
  · intro d hd
    exact ((wait_go_trace_props lookup s _ 0 n0 none).1 d hd).2
  · exact (wait_go_trace_props lookup s _ 0 n0 none).2

/-- C6 counterexample: with delay sequence `[1]` the generic retry wrapper
(`backoff_retry`) sleeps for 1 before the first attempt — its trace begins
with a sleep event — so "never sleeps before the first attempt, for every
delay sequence, identically at every use site" is false as stated. -/
theorem backoff_retry_initial_sleep_counterexample :
    (backoff_retry (fun _ => Except.ok 0 : Nat → Except PyExc Nat) none [] [1]).2
      = [Ev.sleep 1, Ev.attempt 0]
    ∧ noInitialSleep
        (backoff_retry (fun _ => Except.ok 0 : Nat → Except PyExc Nat) none [] [1]).2
      = false := ⟨rfl, rfl⟩

theorem attemptCount_backoffSleepBlocks :
    ∀ (l : List Nat) (k : Nat), attemptCount (backoffSleepBlocks l k) = l.length := by
  intro l
  induction l with
  | nil => intro k; rfl
  | cons d rest ih =>
    intro k
    simp only [backoffSleepBlocks, attemptCount, List.filter_append, List.length_append,
      List.length_cons]
    have hih := ih (k + 1)
    simp only [attemptCount] at hih
    rw [hih]
    by_cases hd : d = 0
    · simp [hd, isAttemptEv]
      omega
    · simp [hd, isAttemptEv]
      omega

theorem attemptCount_waitSleepBlocks (s : String) :
    ∀ (l : List Nat) (idx : Nat), attemptCount (waitSleepBlocks s l idx) = l.length := by
  intro l
  induction l with
  | nil => intro idx; rfl
  | cons d rest ih =>
    intro idx
    simp only [waitSleepBlocks, attemptCount, List.filter_append, List.length_append,
      List.length_cons]
    have hih := ih (idx + 1)
    simp only [attemptCount] at hih
    rw [hih]
    by_cases hb : (idx > 0 && d > 0) = true
    · simp [hb, isAttemptEv]
      omega
    · simp only [Bool.not_eq_true] at hb
      simp [hb, isAttemptEv]
      omega

theorem backoff_go_blocks (op : Nat → Except PyExc α) (ri : Option (PyExc → Bool))
    (st : List Nat) :
    ∀ (delays : List Nat) (k : Nat) (last : Option PyExc),
      ∃ m, m ≤ delays.length
        ∧ (backoff_go op ri st delays k last).2 = backoffSleepBlocks (delays.take m) k := by
  intro delays
  induction delays with
  | nil =>
    intro k last
    exact ⟨0, Nat.le_refl _, by simp [backoff_go, backoffSleepBlocks]⟩
  | cons d rest ih =>
    intro k last
    cases hop : op k with
    | ok v =>
      refine ⟨1, by simp, ?_⟩
      rw [backoff_go_trace_cons_ok op ri st d rest k last v hop]
      simp [backoffSleepBlocks]
    | error ex =>
      by_cases hr : shouldRetry ri st ex = true
      · obtain ⟨m, hm, heq⟩ := ih (k + 1) (some ex)
        refine ⟨m + 1, by simpa using hm, ?_⟩
        rw [backoff_go_trace_cons_retry op ri st d rest k last ex hop hr, heq]
        simp [List.take_succ_cons, backoffSleepBlocks]
      · refine ⟨1, by simp, ?_⟩
        rw [backoff_go_trace_cons_stop op ri st d rest k last ex hop (by simpa using hr)]
        simp [backoffSleepBlocks]

theorem wait_go_blocks (lookup : Nat → String → Option EntityMeta) (s : String) :
    ∀ (delays : List Nat) (idx n : Nat) (last : Option EntityMeta),
      ∃ m, m ≤ delays.length
        ∧ (wait_go lookup s delays idx n last).2.2
            = waitSleepBlocks s (delays.take m) idx := by
  intro delays
  induction delays with
  | nil =>
    intro idx n last
    exact ⟨0, Nat.le_refl _, by simp [wait_go, waitSleepBlocks]⟩
  | cons d rest ih =>
    intro idx n last
    by_cases hready : (match lookup n s with | some e => entReady e | none => false) = true
    · refine ⟨1, by simp, ?_⟩
      rw [wait_go_trace_cons_ready lookup s d rest idx n last hready]
      simp [waitSleepBlocks]
    · obtain ⟨m, hm, heq⟩ := ih (idx + 1) (n + 1) (lookup n s)
      refine ⟨m + 1, by simpa using hm, ?_⟩
      rw [wait_go_trace_cons_notready lookup s d rest idx n last (by simpa using hready), heq]
      simp [List.take_succ_cons, waitSleepBlocks]

theorem wait_for_entity_ready_blocks (lookup : Nat → String → Option EntityMeta)
    (s : String) (delaysOpt : Option (List Nat)) (n0 : Nat) :
    ∃ m, m ≤ (waitDelays delaysOpt).length
      ∧ (_wait_for_entity_ready lookup s delaysOpt n0).2.2
          = waitSleepBlocks s ((waitDelays delaysOpt).take m) 0 := by
  have hdef : _wait_for_entity_ready lookup s delaysOpt n0
      = wait_go lookup s (waitDelays delaysOpt) 0 n0 none := rfl
  rw [hdef]
  exact wait_go_blocks lookup s (waitDelays delaysOpt) 0 n0 none

/-- C6 (amended): for every delay sequence, each use site's trace is exactly
one block per attempted delay (`m` of them, `m` = number of attempts made):
before each attempt the site sleeps that attempt's configured delay under its
own guard — the metadata readiness poll under `idx > 0 and delay > 0`, so it
sleeps before each attempt after the first whose delay is positive and never
before the first attempt; the generic retry wrapper under `delay != 0` alone,
so it sleeps before every attempt whose configured delay is non-zero,
including the first: with a non-zero first delay its trace starts with that
sleep. Zero-valued delays cause no sleep at either site; the no-initial-sleep
property thus does not hold identically at both use sites. -/
theorem sleep_discipline_amended (lookup : Nat → String → Option EntityMeta) (s : String)
    (delaysOpt : Option (List Nat)) (n0 : Nat) (op : Nat → Except PyExc α)
    (ri : Option (PyExc → Bool)) (st : List Nat) (delays : List Nat)
    (d : Nat) (rest : List Nat) :
    (∃ m, m ≤ (waitDelays delaysOpt).length
      ∧ attemptCount (_wait_for_entity_ready lookup s delaysOpt n0).2.2 = m
      ∧ (_wait_for_entity_ready lookup s delaysOpt n0).2.2
          = waitSleepBlocks s ((waitDelays delaysOpt).take m) 0)
    ∧ (∃ m, m ≤ delays.length
      ∧ attemptCount (backoff_retry op ri st delays).2 = m
      ∧ (backoff_retry op ri st delays).2 = backoffSleepBlocks (delays.take m) 0)
    ∧ Ev.sleep 0 ∉ (_wait_for_entity_ready lookup s delaysOpt n0).2.2
    ∧ Ev.sleep 0 ∉ (backoff_retry op ri st delays).2
    ∧ noInitialSleep (_wait_for_entity_ready lookup s delaysOpt n0).2.2 = true
    ∧ (d ≠ 0 → (backoff_retry op ri st (d :: rest)).2.head? = some (Ev.sleep d)
        ∧ noInitialSleep (backoff_retry op ri st (d :: rest)).2 = false)
    ∧ (d = 0 → noInitialSleep (backoff_retry op ri st (d :: rest)).2 = true) := by
  refine ⟨?_, ?_, ?_, ?_,
    (wait_for_entity_ready_trace lookup s delaysOpt n0).1,
    (backoff_initial_sleep op ri st d rest).1,
    (backoff_initial_sleep op ri st d rest).2⟩
  · obtain ⟨m, hm, heq⟩ := wait_for_entity_ready_blocks lookup s delaysOpt n0
    refine ⟨m, hm, ?_, heq⟩
    rw [heq, attemptCount_waitSleepBlocks, List.length_take]
    omega
  · unfold backoff_retry
    obtain ⟨m, hm, heq⟩ := backoff_go_blocks op ri st delays 0 none
    refine ⟨m, hm, ?_, heq⟩
    rw [heq, attemptCount_backoffSleepBlocks, List.length_take]
    omega
  · intro hmem
    exact (wait_for_entity_ready_trace lookup s delaysOpt n0).2.1 0 hmem rfl
  · intro hmem
    exact ((backoff_go_trace_props op ri st delays 0 none).1 0 hmem).2 rfl

/-- Witness for C6 (amended) at a concrete ready lookup, poll delays `[3, 4]`
and wrapper delays `[1, 2]` with every failure retryable: the poll's trace has
no initial sleep, while the wrapper's trace starts with the sleep of its first
delay and is exactly the two blocks `sleep 1, attempt 0, sleep 2, attempt 1` —
a sleep of the configured delay before every attempt, first included. -/
theorem sleep_discipline_amended_witness :
    noInitialSleep (_wait_for_entity_ready sampleLookupFound "new_SampleItem"
      (some [3, 4]) 0).2.2 = true
    ∧ (backoff_retry sampleRetryOp none [503] [1, 2]).2.head? = some (Ev.sleep 1)
    ∧ noInitialSleep (backoff_retry sampleRetryOp none [503] [1, 2]).2 = false
    ∧ (backoff_retry sampleRetryOp none [503] [1, 2]).2
        = backoffSleepBlocks [1, 2] 0 := by
  have h := sleep_discipline_amended sampleLookupFound "new_SampleItem" (some [3, 4]) 0
    sampleRetryOp none [503] [1, 2] 1 [2]
  refine ⟨h.2.2.2.2.1, (h.2.2.2.2.2.1 (by decide)).1, (h.2.2.2.2.2.1 (by decide)).2, ?_⟩
  obtain ⟨m, hm, hcount, heq⟩ := h.2.1
  have hm2 : m = 2 := by
    rw [← hcount]
    rfl
  rw [hm2] at heq
  exact heq

/-! ## C7 — identifier extraction -/

theorem extract_id_go_skip (pre rest : List (String × PyVal))
    (h : ∀ kv ∈ pre, idFieldMatch kv = false) :
    extract_id_go (pre ++ rest) = extract_id_go rest := by
  induction pre with
  | nil => rfl
  | cons kv pre ih =>
    obtain ⟨k, v⟩ := kv
    have hkv : idFieldMatch (k, v) = false := h (k, v) (List.mem_cons_self _ _)
    simp only [List.cons_append, extract_id_go, hkv, Bool.false_eq_true, if_false]
    exact ih (fun kv hm => h kv (List.mem_cons_of_mem _ hm))

theorem extract_id_go_all_miss (l : List (String × PyVal))
    (h : ∀ kv ∈ l, idFieldMatch kv = false) :
    extract_id_go l = none := by
  induction l with
  | nil => rfl
  | cons kv rest ih =>
    obtain ⟨k, v⟩ := kv
    have hkv : idFieldMatch (k, v) = false := h (k, v) (List.mem_cons_self _ _)
    simp only [extract_id_go, hkv, Bool.false_eq_true, if_false]
    exact ih (fun kv hm => h kv (List.mem_cons_of_mem _ hm))

/-- C7: `_extract_id` returns the (unstripped) value of the first field whose
key lowercases to an `"id"` suffix and whose string value matches the
36-character `[0-9a-fA-F-]` shape after stripping; on the record
`{"foo_caseid": "3fa85f64-…", "bar": 1}` it returns the GUID string; and on a
record with no such field it fails with the extraction `RuntimeError`
(`Except.error`, a failure distinct in kind from a transport `HTTPError`). -/
theorem extract_id_first_guid_field (pre post other_record : List (String × PyVal))
    (k s : String)
    (h1 : ∀ kv ∈ pre, idFieldMatch kv = false)
    (h2 : idFieldMatch (k, PyVal.str s) = true)
    (h3 : ∀ kv ∈ other_record, idFieldMatch kv = false) :
    _extract_id (pre ++ (k, PyVal.str s) :: post) = Except.ok s
    ∧ _extract_id other_record = Except.error extractIdErrMsg
    ∧ _extract_id [("foo_caseid", PyVal.str "3fa85f64-5717-4562-b3fc-2c963f66afa6"),
        ("bar", PyVal.int 1)] = Except.ok "3fa85f64-5717-4562-b3fc-2c963f66afa6" := by
  refine ⟨?_, ?_, ?_⟩
  · unfold _extract_id
    rw [extract_id_go_skip pre _ h1]
    simp [extract_id_go, h2]
  · unfold _extract_id
    rw [extract_id_go_all_miss other_record h3]
  · rfl

/-- Witness for C7: a record whose first id-shaped field follows a
non-matching field, and a record with no id-shaped field. -/
theorem extract_id_first_guid_field_witness :
    _extract_id ([("name", PyVal.str "Sample A")]
        ++ ("accountid", PyVal.str "3fa85f64-5717-4562-b3fc-2c963f66afa6")
          :: [("other", PyVal.int 2)]) = Except.ok "3fa85f64-5717-4562-b3fc-2c963f66afa6"
    ∧ _extract_id [("foo", PyVal.int 1)] = Except.error extractIdErrMsg
    ∧ _extract_id [("foo_caseid", PyVal.str "3fa85f64-5717-4562-b3fc-2c963f66afa6"),
        ("bar", PyVal.int 1)] = Except.ok "3fa85f64-5717-4562-b3fc-2c963f66afa6" :=
  extract_id_first_guid_field [("name", PyVal.str "Sample A")] [("other", PyVal.int 2)]
    [("foo", PyVal.int 1)] "accountid" "3fa85f64-5717-4562-b3fc-2c963f66afa6"
    (by decide) (by decide) (by decide)

/-! ## C8 — create_table fails fast when the table already exists -/

/-- C8: when the fail-fast existence lookup of `create_table` finds an entity
for the derived schema name, the call fails with the already-exists
`RuntimeError` and the network trace is exactly that one lookup — no
entity-creation POST (which would carry the attribute definitions) is ever
issued, so attribute creation is never attempted. -/
theorem create_table_exists_fail_fast (lookup : Nat → String → Option EntityMeta)
    (post : String → List AttrPayload → Except String Unit)
    (tablename : String) (schema : List (String × String)) (ent0 : EntityMeta)
    (hex : lookup 0 (if pyContainsChar tablename '_' then tablename
        else "new_" ++ _to_pascal tablename) = some ent0) :
    create_table lookup post tablename schema
      = (Except.error ("Table '"
            ++ (if pyContainsChar tablename '_' then tablename
                else "new_" ++ _to_pascal tablename)
            ++ "' already exists. No update performed."),
         [Ev.lookupCall (if pyContainsChar tablename '_' then tablename
            else "new_" ++ _to_pascal tablename)])
    ∧ (∀ s, Ev.postEntityCall s ∉ (create_table lookup post tablename schema).2) := by
  have heq : create_table lookup post tablename schema
      = (Except.error ("Table '"
            ++ (if pyContainsChar tablename '_' then tablename
                else "new_" ++ _to_pascal tablename)
            ++ "' already exists. No update performed."),
         [Ev.lookupCall (if pyContainsChar tablename '_' then tablename
            else "new_" ++ _to_pascal tablename)]) := by
    simp only [create_table]
    rw [hex]
  refine ⟨heq, ?_⟩
  intro s
  rw [heq]
  simp

/-- Witness for C8: a lookup that always finds the table makes
`create_table` fail with only the single existence-check in its trace. -/
theorem create_table_exists_fail_fast_witness :
    create_table sampleLookupFound samplePost "new_SampleItem" [("code", "string")]
      = (Except.error ("Table '"
            ++ (if pyContainsChar "new_SampleItem" '_' then "new_SampleItem"
                else "new_" ++ _to_pascal "new_SampleItem")
            ++ "' already exists. No update performed."),
         [Ev.lookupCall (if pyContainsChar "new_SampleItem" '_' then "new_SampleItem"
            else "new_" ++ _to_pascal "new_SampleItem")])
    ∧ Ev.postEntityCall "new_SampleItem"
        ∉ (create_table sampleLookupFound samplePost "new_SampleItem"
            [("code", "string")]).2 := by
  have h := create_table_exists_fail_fast sampleLookupFound samplePost "new_SampleItem"
    [("code", "string")]
    (EntityMeta.mk (some "mid-1") (some "new_sampleitem") (some "new_SampleItem")
      (some "new_sampleitems"))
    (by decide)
  exact ⟨h.1, h.2 "new_SampleItem"⟩

/-! ## C9 — _format_key is idempotent and always parenthesizes -/

theorem pyStrip_of_paren (s : String)
    (h1 : pyStartsWith s "(" = true) (h2 : pyEndsWith s ")" = true) :
    pyStrip s = s := by
  obtain ⟨t, ht⟩ := List.isPrefixOf_iff_prefix.mp h1
  obtain ⟨u, hu⟩ := List.isSuffixOf_iff_suffix.mp h2
  have hws1 : pyWS '(' = false := rfl
  have hws2 : pyWS ')' = false := rfl
  have hd1 : s.data.dropWhile pyWS = s.data := by
    rw [← ht]
    simp [List.singleton_append, List.dropWhile_cons, hws1]
  have hd2 : s.data.reverse.dropWhile pyWS = s.data.reverse := by
    rw [← hu]
    simp [List.reverse_append, List.dropWhile_cons, hws2]
  unfold pyStrip
  rw [hd1, hd2, List.reverse_reverse]

theorem format_key_of_wrapped (s : String)
    (h1 : pyStartsWith s "(" = true) (h2 : pyEndsWith s ")" = true) :
    _format_key s = s := by
  simp only [_format_key]
  rw [pyStrip_of_paren s h1 h2, h1, h2]
  simp

theorem format_key_starts_ends (key : String) :
    pyStartsWith (_format_key key) "(" = true
    ∧ pyEndsWith (_format_key key) ")" = true := by
  simp only [_format_key]
  by_cases hc : (pyStartsWith (pyStrip key) "(" && pyEndsWith (pyStrip key) ")") = true
  · rw [if_pos hc]
    simp only [Bool.and_eq_true] at hc
    exact ⟨hc.1, hc.2⟩
  · rw [if_neg hc, ite_self]
    constructor
    · show ("(".data.isPrefixOf (String.mk ('(' :: (pyStrip key).data ++ [')'])).data) = true
      rw [show "(".data = ['('] from rfl]
      simp [List.isPrefixOf]
    · show (")".data.isSuffixOf (String.mk ('(' :: (pyStrip key).data ++ [')'])).data) = true
      rw [show ")".data = [')'] from rfl]
      simp [List.isSuffixOf, List.isPrefixOf]

/-- C9: `_format_key` is idempotent — formatting an already-formatted key is
the identity — and its result always begins with `"("` and ends with `")"`. -/
theorem format_key_idempotent (key : String) :
    _format_key (_format_key key) = _format_key key
    ∧ pyStartsWith (_format_key key) "(" = true
    ∧ pyEndsWith (_format_key key) ")" = true := by
  have hse := format_key_starts_ends key
  exact ⟨format_key_of_wrapped (_format_key key) hse.1 hse.2, hse.1, hse.2⟩

/-! ## C10 — query_sql: null and blank query results give the empty list -/

/-- C10: `query_sql` returns the empty list (not `None`, not an error) when
the envelope's `queryresult` is `null`, and likewise when it is a string that
strips to empty, in both cases without attempting a JSON parse (the trace is
empty); only for a string with non-empty stripped content is `json.loads`
attempted, on exactly that stripped string. -/
theorem query_sql_empty_and_parse (f : String → Except String (List PyVal))
    (api : String) (s s2 : String)
    (hws : pyStrip s = "") (hns : pyStrip s2 ≠ "") :
    query_sql f api QueryResultField.null = (Except.ok [], [])
    ∧ query_sql f api (QueryResultField.str s) = (Except.ok [], [])
    ∧ query_sql f api (QueryResultField.str s2)
        = (f (pyStrip s2), [Ev.jsonParse (pyStrip s2)]) := by
  refine ⟨rfl, ?_, ?_⟩
  · simp [query_sql, hws]
  · simp [query_sql, hns]

/-- Witness for C10: a whitespace-only query result yields the empty list with
no parse attempt; a non-blank one is handed (stripped) to the parser. -/
theorem query_sql_empty_and_parse_witness :
    query_sql (fun _ => Except.ok ([] : List PyVal)) "ExecuteSQLQuery"
        QueryResultField.null = (Except.ok [], [])
    ∧ query_sql (fun _ => Except.ok ([] : List PyVal)) "ExecuteSQLQuery"
        (QueryResultField.str " \t ") = (Except.ok [], [])
    ∧ query_sql (fun _ => Except.ok ([] : List PyVal)) "ExecuteSQLQuery"
        (QueryResultField.str "rows")
        = ((fun _ => Except.ok ([] : List PyVal)) (pyStrip "rows"),
           [Ev.jsonParse (pyStrip "rows")]) :=
  query_sql_empty_and_parse (fun _ => Except.ok ([] : List PyVal)) "ExecuteSQLQuery"
    " \t " "rows" (by decide) (by decide)
